import Mathlib

/-!
Verification of the podcast reconciliation engine of `sound-syncer`
(`src/main.rs`), as a shallow embedding in Lean 4.

Pure functions (`fat32_sanitize`, `podcast_file_name`) are translated
directly.  The stateful sync loop (`sync_podcasts`, `main`) is embedded as
explicit state passing: external effects (the RSS fetch, the `chrono`
RFC-2822 parser, the `curl` download, the `ffmpeg` transcode, the
`filetime::set_file_mtime` call) are parameters of the embedding, supplied
as result-valued functions, exactly at the points where the Rust code
performs them.  Machine timestamps are modelled as `Int` seconds plus `Nat`
nanoseconds, matching `chrono`'s `timestamp()` / `FileTime::from_unix_time`
split.
-/

namespace SoundSyncer

/-- `fat32_sanitize` keeps a character iff it matches the Rust pattern
`'0'..='9' | 'a'..='z' | 'A'..='Z' | ' ' | '-' | '_' | '.'`
(src/main.rs lines 83-86). -/
def fat32_keep (c : Char) : Bool :=
  (decide ('0' ≤ c) && decide (c ≤ '9')) ||
  (decide ('a' ≤ c) && decide (c ≤ 'z')) ||
  (decide ('A' ≤ c) && decide (c ≤ 'Z')) ||
  c == ' ' || c == '-' || c == '_' || c == '.'

/-- `fat32_sanitize` (src/main.rs lines 81-88): filter the characters of
the string, keeping only those matched by `fat32_keep`. -/
def fat32_sanitize (f : String) : String :=
  String.mk (f.data.filter fat32_keep)

/-- `podcast_file_name` (src/main.rs lines 90-96):
`format!("{} - {}.mp3", fat32_sanitize(podcast), fat32_sanitize(title))`. -/
def podcast_file_name (podcast : String) (title : String) : String :=
  fat32_sanitize podcast ++ " - " ++ fat32_sanitize title ++ ".mp3"

/-- Spec-side character set, following the spec's words: the set
{ASCII letters, digits, space, hyphen, underscore, period}. -/
def specAllowedChar (c : Char) : Bool :=
  (decide ('A' ≤ c) && decide (c ≤ 'Z')) ||
  (decide ('a' ≤ c) && decide (c ≤ 'z')) ||
  (decide ('0' ≤ c) && decide (c ≤ '9')) ||
  c == ' ' || c == '-' || c == '_' || c == '.'

/-- Spec-side sanitizer: removes every character outside the allowed set. -/
def specSanitize (s : String) : String :=
  String.mk (s.data.filter specAllowedChar)

/-- Spec-side file-name builder:
`sanitize(podcast_name) + " - " + sanitize(title) + ".mp3"`. -/
def specPodcastFileName (podcast : String) (title : String) : String :=
  specSanitize podcast ++ " - " ++ specSanitize title ++ ".mp3"

/-- A podcast entry of the configuration (src/main.rs lines 21-27).
`playback_speed` is an `f64` in Rust; it is carried here as a `Float` and
only ever passed verbatim to the transcoder argument, never computed with. -/
structure Podcast where
  name : String
  url : String
  keep_latest : Nat
  playback_speed : Float

/-- A podcast set of the configuration (src/main.rs lines 29-33). -/
structure PodcastSet where
  name : String
  podcasts : List Podcast

/-- An RSS item as consumed by `sync_podcasts`: the three optional fields
read from `rss::Item` (title, pub_date, enclosure URL). -/
structure Item where
  title : Option String
  pub_date : Option String
  enclosure : Option String

/-- A timestamp as `chrono` exposes it: whole seconds plus nanoseconds.
`timestamp()` is the `secs` component. -/
structure Timestamp where
  secs : Int
  nanos : Nat
deriving DecidableEq

/-- Result of `tokio::process::Command::status()`: `launched code` when the
child was spawned and exited with the given status code, `launchFailed`
when spawning itself failed (the only case in which `status()` returns
`Err`). -/
inductive SpawnResult where
  | launched (exitCode : Int)
  | launchFailed
deriving DecidableEq

/-- The external effects consumed while syncing one episode: the `curl`
download, the `ffmpeg` transcode, and whether `filetime::set_file_mtime`
succeeds. -/
structure EpisodeEffects where
  curl : SpawnResult
  ffmpeg : SpawnResult
  setMtimeOk : Bool

/-- A directory entry as seen by the scan loop (src/main.rs lines
101-127): a name, whether it is a regular file, and its mtime. -/
structure DirEntry where
  name : String
  isFile : Bool
  mtime : Timestamp

/-- The directory scan (src/main.rs lines 104-127): keep regular files
only, truncating each mtime to whole seconds
(`DateTime::from_timestamp(FileTime::...unix_seconds(), 0)`). -/
def scanDir (entries : List DirEntry) : List (String × Int) :=
  entries.filterMap (fun e => if e.isFile then some (e.name, e.mtime.secs) else none)

/-- Lookup view of the scanned mapping (the `existing_files` HashMap).
Directory listings never repeat a name, so first-match lookup agrees with
HashMap collection. -/
def existingOf (entries : List DirEntry) : String → Option Int :=
  fun n => (scanDir entries).lookup n

/-- Mutable state threaded through `sync_podcasts`: the `expected_files`
HashSet (kept as an insertion-ordered duplicate-free list) and the trace
of files written into the podcast directory with their stamped mtimes. -/
structure SyncState where
  expected_files : List String
  writes : List (String × Timestamp)
deriving DecidableEq

/-- `HashSet::insert`: add the element unless already present. -/
def insertSet (s : List String) (x : String) : List String :=
  if x ∈ s then s else s ++ [x]

/-- The redownload decision (src/main.rs lines 170-186): absent file means
download; present file means compare second timestamps. -/
def redownloadDecision (existing : String → Option Int) (file_name : String)
    (pubSecs : Int) : Bool :=
  match existing file_name with
  | some mtime => if mtime == pubSecs then false else true
  | none => true

/-- One iteration of the episode loop of `sync_podcasts` (src/main.rs
lines 150-217).  Returns the state after the iteration together with
`Except.ok ()` or the error with which the iteration aborted via `?`.
Exactly as in the source: field validation first (title, pub date, date
parse, enclosure), then the redownload decision, then — only when
redownloading — curl, ffmpeg and the mtime stamp, whose spawn results are
consumed from `eff`; note that the exit codes of launched processes are
never inspected.  The insertion into `expected_files` is the last
statement of the loop body and is skipped on every error path. -/
def syncItem (parse : String → Option Timestamp) (eff : EpisodeEffects)
    (podcastName : String) (existing : String → Option Int)
    (item : Item) (st : SyncState) : SyncState × Except String Unit :=
  match item.title with
  | none => (st, .error ("Podcast " ++ podcastName ++ " item doesn\x27t have title"))
  | some title =>
    match item.pub_date with
    | none => (st, .error ("Podcast " ++ podcastName ++ " episode " ++ title ++
        " doesn\x27t have pub date"))
    | some pub_date_str =>
      match parse pub_date_str with
      | none => (st, .error ("Failed to parse date time " ++ pub_date_str))
      | some pub_time =>
        match item.enclosure with
        | none => (st, .error ("Podcast " ++ podcastName ++ " episode " ++ title ++
            " doesn\x27t have enclosure"))
        | some _enclosure =>
          let file_name := podcast_file_name podcastName title
          if redownloadDecision existing file_name pub_time.secs then
            match eff.curl with
            | .launchFailed => (st, .error "Failed to download episode")
            | .launched _ =>
              match eff.ffmpeg with
              | .launchFailed => (st, .error "Failed to download episode")
              | .launched _ =>
                if eff.setMtimeOk then
                  ({ expected_files := insertSet st.expected_files file_name,
                     writes := st.writes ++ [(file_name, ⟨pub_time.secs, 0⟩)] },
                   .ok ())
                else (st, .error "Failed to set mtime")
          else
            ({ st with expected_files := insertSet st.expected_files file_name },
             .ok ())

/-- The episode loop over a list of items (the body of
`for item in channel.items.iter().take(podcast.keep_latest)`), indexing
episodes so each consumes its own effects; stops at the first error,
keeping the state mutated so far, exactly like `?` inside the Rust loop. -/
def syncItems (parse : String → Option Timestamp) (eff : Nat → EpisodeEffects)
    (podcastName : String) (existing : String → Option Int) :
    List Item → Nat → SyncState → SyncState × Except String Unit
  | [], _, st => (st, .ok ())
  | item :: rest, i, st =>
    match syncItem parse (eff i) podcastName existing item st with
    | (st2, .ok _) => syncItems parse eff podcastName existing rest (i + 1) st2
    | (st2, .error e) => (st2, .error e)

/-- Processing of one podcast inside `sync_podcasts`: the fetched feed is
truncated to the first `keep_latest` items (src/main.rs line 150) before
the episode loop runs. -/
def syncOnePodcast (parse : String → Option Timestamp) (eff : Nat → EpisodeEffects)
    (podcast : Podcast) (existing : String → Option Int)
    (items : List Item) (st : SyncState) : SyncState × Except String Unit :=
  syncItems parse eff podcast.name existing (items.take podcast.keep_latest) 0 st

/-- The podcast loop of `sync_podcasts` (src/main.rs lines 137-218):
fetch-and-parse each feed (modelled by `fetch`, covering `reqwest::get`,
`bytes()` and `Channel::read_from`), abort on its error, then run the
episode loop; `eff p i` supplies the effects of episode `i` of podcast
`p`. -/
def podcastsLoop (parse : String → Option Timestamp)
    (eff : Nat → Nat → EpisodeEffects)
    (fetch : Podcast → Except String (List Item))
    (existing : String → Option Int) :
    List Podcast → Nat → SyncState → SyncState × Except String Unit
  | [], _, st => (st, .ok ())
  | p :: rest, i, st =>
    match fetch p with
    | .error e => (st, .error e)
    | .ok items =>
      match syncOnePodcast parse (eff i) p existing items st with
      | (st2, .ok _) => podcastsLoop parse eff fetch existing rest (i + 1) st2
      | (st2, .error e) => (st2, .error e)

/-- `sync_podcasts` (src/main.rs lines 98-220): scan the podcast-set
directory once into `existing_files`, start with an empty
`expected_files` set, then run the podcast loop.  Directory creation and
the temporary directory are external effects with no bearing on the
claims and are elided. -/
def sync_podcasts (parse : String → Option Timestamp)
    (eff : Nat → Nat → EpisodeEffects)
    (fetch : Podcast → Except String (List Item))
    (set : PodcastSet) (entries : List DirEntry) :
    SyncState × Except String Unit :=
  podcastsLoop parse eff fetch (existingOf entries) set.podcasts 0
    ⟨[], []⟩

/-- The podcast-set loop of `main` (src/main.rs lines 237-239):
`for podcast_set in &config.podcasts { sync_podcasts(..).await?; }`.
Returns the names of the sets on which `sync_podcasts` was invoked,
together with the overall result; the `?` makes an error abort the loop. -/
def syncPodcastSetsLoop (runSet : PodcastSet → Except String Unit) :
    List PodcastSet → List String × Except String Unit
  | [] => ([], .ok ())
  | s :: rest =>
    match runSet s with
    | .ok _ =>
      let r := syncPodcastSetsLoop runSet rest
      (s.name :: r.1, r.2)
    | .error e => ([s.name], .error e)

/-- Effect of `filetime::set_file_mtime` on a directory picture: later
writes to the same name shadow earlier ones. -/
def applyWrite (existing : String → Option Int) (w : String × Timestamp) :
    String → Option Int :=
  fun n => if n = w.1 then some w.2.secs else existing n

/-- The filename-to-mtime mapping a next run's scan would observe, given
this run's initial mapping and the writes performed (each stamped mtime
read back at second granularity). -/
def nextRunExisting (existing : String → Option Int)
    (ws : List (String × Timestamp)) : String → Option Int :=
  ws.foldl applyWrite existing

/-- Fully successful episode effects: both processes launch and exit 0,
and the mtime stamp succeeds. -/
def allOkEff : EpisodeEffects := ⟨.launched 0, .launched 0, true⟩

/-- A concrete date parser for closed runs: it knows the two date strings
"D1" (100 s and 500 ns past the epoch) and "D2" (200 s). -/
def parseDemo : String → Option Timestamp :=
  fun d => if d = "D1" then some ⟨100, 500⟩ else
    if d = "D2" then some ⟨200, 0⟩ else none

/-- A date parser that rejects every input. -/
def parseNone : String → Option Timestamp := fun _ => none

/-- The view of an empty podcast directory. -/
def exNone : String → Option Int := fun _ => none

/-- A directory view holding exactly `P - T.mp3` with mtime 100 s. -/
def exUpToDate : String → Option Int :=
  fun n => if n = "P - T.mp3" then some 100 else none

/-- A feed fetcher returning two episodes whose titles sanitize to the
same filename (`#` and `?` are both stripped). -/
def fetchCollide : Podcast → Except String (List Item) :=
  fun _ => .ok [⟨some "Ep#1", some "D1", some "U1"⟩,
                ⟨some "Ep?1", some "D2", some "U2"⟩]

/-- A feed fetcher that always fails, with the message `wrap_err_with`
attaches in src/main.rs lines 141-146. -/
def fetchFailDemo : Podcast → Except String (List Item) :=
  fun p => .error ("Failed to fetch podcast " ++ p.name ++ " from " ++ p.url)

/-- A concrete podcast set named `A`. -/
def setA : PodcastSet := ⟨"A", [⟨"PA", "urlA", 1, 1.0⟩]⟩

/-- A concrete podcast set named `B`. -/
def setB : PodcastSet := ⟨"B", [⟨"PB", "urlB", 1, 1.0⟩]⟩

/-- Running a podcast set with the always-failing fetcher, as `main`
would invoke it. -/
def runSetDemo : PodcastSet → Except String Unit :=
  fun s => (sync_podcasts parseDemo (fun _ _ => allOkEff) fetchFailDemo s []).2

theorem fat32_keep_eq_specAllowedChar (c : Char) :
    fat32_keep c = specAllowedChar c := by
  simp only [fat32_keep, specAllowedChar]
  by_cases h1 : '0' ≤ c <;> by_cases h2 : c ≤ '9' <;>
    by_cases h3 : 'a' ≤ c <;> by_cases h4 : c ≤ 'z' <;>
    by_cases h5 : 'A' ≤ c <;> by_cases h6 : c ≤ 'Z' <;>
    simp [h1, h2, h3, h4, h5, h6]

/-- C4: `fat32_sanitize` keeps exactly the spec's character set
{ASCII letters, digits, space, hyphen, underscore, period}, producing a
subsequence of the input (no case normalization or whitespace collapsing);
`podcast_file_name` is `sanitize(podcast) ++ " - " ++ sanitize(title) ++
".mp3"`; and `fat32_sanitize "Show: Part #1?!" = "Show Part 1"`. -/
theorem sanitize_matches_spec :
    (∀ s : String, fat32_sanitize s = specSanitize s) ∧
    (∀ s : String, List.Sublist (fat32_sanitize s).data s.data) ∧
    (∀ p t : String, podcast_file_name p t = specPodcastFileName p t) ∧
    fat32_sanitize "Show: Part #1?!" = "Show Part 1" := by
  have hsan : ∀ s : String, fat32_sanitize s = specSanitize s := by
    intro s
    simp only [fat32_sanitize, specSanitize]
    congr 1
    exact List.filter_congr (fun c _ => fat32_keep_eq_specAllowedChar c)
  refine ⟨hsan, ?_, ?_, ?_⟩
  · intro s
    simp only [fat32_sanitize]
    exact List.filter_sublist s.data
  · intro p t
    simp [podcast_file_name, specPodcastFileName, hsan]
  · decide

/-- C5: `fat32_sanitize` is a total function (here by construction) and is
idempotent: sanitizing twice equals sanitizing once, for every string
including the empty one. -/
theorem sanitize_idempotent (s : String) :
    fat32_sanitize (fat32_sanitize s) = fat32_sanitize s := by
  simp [fat32_sanitize, List.filter_filter]

theorem mem_insertSet_self (s : List String) (x : String) : x ∈ insertSet s x := by
  by_cases h : x ∈ s <;> simp [insertSet, h]

/-- C1: for an in-window episode with valid fields, the reconciliation
decision is exactly: filename absent from the scanned mapping means
needs-download (the pipeline runs and writes the file); present with
equal second timestamp means up-to-date (the result is the same for every
effect environment and no write occurs); present with a differing second
timestamp means needs-download again. -/
theorem reconciliation_decision (parse : String → Option Timestamp)
    (podcastName t d e : String) (existing : String → Option Int)
    (ts : Timestamp) (st : SyncState)
    (hparse : parse d = some ts) :
    (existing (podcast_file_name podcastName t) = none →
      ∀ c1 c2 : Int,
        syncItem parse ⟨.launched c1, .launched c2, true⟩ podcastName existing
            ⟨some t, some d, some e⟩ st =
          ({ expected_files :=
               insertSet st.expected_files (podcast_file_name podcastName t),
             writes :=
               st.writes ++ [(podcast_file_name podcastName t, ⟨ts.secs, 0⟩)] },
           .ok ())) ∧
    (∀ m : Int, existing (podcast_file_name podcastName t) = some m → m = ts.secs →
      ∀ eff : EpisodeEffects,
        syncItem parse eff podcastName existing ⟨some t, some d, some e⟩ st =
          ({ st with expected_files :=
               insertSet st.expected_files (podcast_file_name podcastName t) },
           .ok ())) ∧
    (∀ m : Int, existing (podcast_file_name podcastName t) = some m → m ≠ ts.secs →
      ∀ c1 c2 : Int,
        syncItem parse ⟨.launched c1, .launched c2, true⟩ podcastName existing
            ⟨some t, some d, some e⟩ st =
          ({ expected_files :=
               insertSet st.expected_files (podcast_file_name podcastName t),
             writes :=
               st.writes ++ [(podcast_file_name podcastName t, ⟨ts.secs, 0⟩)] },
           .ok ())) := by
  refine ⟨?_, ?_, ?_⟩
  · intro hex c1 c2
    simp [syncItem, hparse, redownloadDecision, hex]
  · intro m hm hmeq eff
    subst hmeq
    simp [syncItem, hparse, redownloadDecision, hm]
  · intro m hm hne c1 c2
    have hb : (m == ts.secs) = false := by
      simp [hne]
    simp [syncItem, hparse, redownloadDecision, hm, hb]

/-- Witness for C1 at a concrete input: the up-to-date branch, where the
local file `P - T.mp3` carries mtime 100 s and the episode's publication
time is 100 s plus 500 ns. -/
theorem reconciliation_decision_witness :
    syncItem parseDemo allOkEff "P" exUpToDate
        ⟨some "T", some "D1", some "U"⟩ ⟨[], []⟩ =
      ({ expected_files := insertSet [] "P - T.mp3", writes := [] }, .ok ()) :=
  (reconciliation_decision parseDemo "P" "T" "D1" "U" exUpToDate
    ⟨100, 500⟩ ⟨[], []⟩ rfl).2.1 100 rfl rfl allOkEff

/-- C2: only the first `keep_latest` feed items are processed; appending
any further items to the feed (even invalid ones) changes nothing about
the run, so episodes beyond the window are never validated, looked up,
downloaded, or added to the expected set. -/
theorem keep_latest_window (parse : String → Option Timestamp)
    (eff : Nat → EpisodeEffects) (p : Podcast) (existing : String → Option Int)
    (items extra : List Item) (st : SyncState)
    (h : p.keep_latest ≤ items.length) :
    syncOnePodcast parse eff p existing (items ++ extra) st =
      syncOnePodcast parse eff p existing items st := by
  unfold syncOnePodcast
  rw [List.take_append_of_le_length h]

/-- Witness for C2 at a concrete input: one valid episode in the window,
one invalid episode appended beyond it. -/
theorem keep_latest_window_witness :
    (⟨"P", "u", 1, 1.0⟩ : Podcast).keep_latest ≤
      ([⟨some "T", some "D1", some "U"⟩] : List Item).length ∧
    syncOnePodcast parseDemo (fun _ => allOkEff) ⟨"P", "u", 1, 1.0⟩ exNone
        ([⟨some "T", some "D1", some "U"⟩] ++ [⟨none, none, none⟩]) ⟨[], []⟩ =
      syncOnePodcast parseDemo (fun _ => allOkEff) ⟨"P", "u", 1, 1.0⟩ exNone
        [⟨some "T", some "D1", some "U"⟩] ⟨[], []⟩ :=
  ⟨Nat.le_refl 1,
   keep_latest_window parseDemo (fun _ => allOkEff) ⟨"P", "u", 1, 1.0⟩ exNone
     [⟨some "T", some "D1", some "U"⟩] [⟨none, none, none⟩] ⟨[], []⟩
     (Nat.le_refl 1)⟩

/-- C3: when the pipeline for a needs-download episode completes
successfully, the file is written with mtime equal to the publication
timestamp truncated to whole seconds (nanoseconds dropped), and a
subsequent run scanning that state classifies the episode up-to-date. -/
theorem mtime_stamped (parse : String → Option Timestamp)
    (podcastName t d e : String) (existing : String → Option Int)
    (ts : Timestamp) (st : SyncState) (c1 c2 : Int)
    (hparse : parse d = some ts)
    (hre : redownloadDecision existing (podcast_file_name podcastName t)
      ts.secs = true) :
    syncItem parse ⟨.launched c1, .launched c2, true⟩ podcastName existing
        ⟨some t, some d, some e⟩ st =
      ({ expected_files :=
           insertSet st.expected_files (podcast_file_name podcastName t),
         writes :=
           st.writes ++ [(podcast_file_name podcastName t, ⟨ts.secs, 0⟩)] },
       .ok ()) ∧
    nextRunExisting existing
        (st.writes ++ [(podcast_file_name podcastName t, ⟨ts.secs, 0⟩)])
        (podcast_file_name podcastName t) = some ts.secs ∧
    redownloadDecision
        (nextRunExisting existing
          (st.writes ++ [(podcast_file_name podcastName t, ⟨ts.secs, 0⟩)]))
        (podcast_file_name podcastName t) ts.secs = false := by
  have hlook : nextRunExisting existing
      (st.writes ++ [(podcast_file_name podcastName t, ⟨ts.secs, 0⟩)])
      (podcast_file_name podcastName t) = some ts.secs := by
    simp [nextRunExisting, List.foldl_append, applyWrite]
  refine ⟨?_, hlook, ?_⟩
  · simp [syncItem, hparse, hre]
  · simp [redownloadDecision, hlook]

/-- Witness for C3 at a concrete input: publication time 100 s plus 500
ns; the stamped mtime is 100 s with 0 ns and the rescan is up-to-date. -/
theorem mtime_stamped_witness :
    syncItem parseDemo ⟨.launched 0, .launched 0, true⟩ "P" exNone
        ⟨some "T", some "D1", some "U"⟩ ⟨[], []⟩ =
      ({ expected_files := insertSet [] "P - T.mp3",
         writes := [("P - T.mp3", ⟨100, 0⟩)] }, .ok ()) ∧
    nextRunExisting exNone [("P - T.mp3", ⟨100, 0⟩)] "P - T.mp3" = some 100 ∧
    redownloadDecision (nextRunExisting exNone [("P - T.mp3", ⟨100, 0⟩)])
      "P - T.mp3" 100 = false :=
  mtime_stamped parseDemo "P" "T" "D1" "U" exNone ⟨100, 500⟩ ⟨[], []⟩ 0 0 rfl rfl

/-- C6 counterexample: with the file absent and the `curl` spawn failing,
the episode aborts with `Failed to download episode` and the resulting
`expected_files` set is still empty — the failed download did prevent the
filename from being considered expected. -/
theorem expected_files_counterexample :
    syncItem parseDemo ⟨.launchFailed, .launched 0, true⟩ "P" exNone
        ⟨some "T", some "D1", some "U"⟩ ⟨[], []⟩ =
      (⟨[], []⟩, .error "Failed to download episode") ∧
    "P - T.mp3" ∉ ([] : List String) :=
  ⟨rfl, by simp⟩

/-- C6 (amended): for a valid in-window episode, the filename is added to
the expected-files set regardless of classification whenever the episode
finishes without error; on any error (spawn failure of the downloader or
transcoder, or mtime-stamp failure) the state — the expected set
included — is left unchanged, so the filename is not added. -/
theorem expected_files_insertion (parse : String → Option Timestamp)
    (eff : EpisodeEffects) (podcastName t d e : String)
    (existing : String → Option Int) (ts : Timestamp) (st : SyncState)
    (hparse : parse d = some ts) :
    ((syncItem parse eff podcastName existing ⟨some t, some d, some e⟩ st).2 =
        .ok () →
      podcast_file_name podcastName t ∈
        (syncItem parse eff podcastName existing
          ⟨some t, some d, some e⟩ st).1.expected_files) ∧
    (∀ msg : String,
      (syncItem parse eff podcastName existing ⟨some t, some d, some e⟩ st).2 =
        .error msg →
      (syncItem parse eff podcastName existing ⟨some t, some d, some e⟩ st).1 =
        st) := by
  obtain ⟨cu, ff, sm⟩ := eff
  cases hdec : redownloadDecision existing (podcast_file_name podcastName t) ts.secs
  · constructor
    · intro _
      simp [syncItem, hparse, hdec, mem_insertSet_self]
    · intro msg hmsg
      simp [syncItem, hparse, hdec] at hmsg
  · cases cu
    case launchFailed =>
      constructor
      · intro hok
        simp [syncItem, hparse, hdec] at hok
      · intro msg _
        simp [syncItem, hparse, hdec]
    case launched c1 =>
      cases ff
      case launchFailed =>
        constructor
        · intro hok
          simp [syncItem, hparse, hdec] at hok
        · intro msg _
          simp [syncItem, hparse, hdec]
      case launched c2 =>
        cases sm
        · constructor
          · intro hok
            simp [syncItem, hparse, hdec] at hok
          · intro msg _
            simp [syncItem, hparse, hdec]
        · constructor
          · intro _
            simp [syncItem, hparse, hdec, mem_insertSet_self]
          · intro msg hmsg
            simp [syncItem, hparse, hdec] at hmsg

/-- Witness for amended C6 at a concrete input: a successfully downloaded
episode has its filename in the resulting expected set. -/
theorem expected_files_insertion_witness :
    "P - T.mp3" ∈
      (syncItem parseDemo allOkEff "P" exNone
        ⟨some "T", some "D1", some "U"⟩ ⟨[], []⟩).1.expected_files :=
  (expected_files_insertion parseDemo allOkEff "P" "T" "D1" "U" exNone
    ⟨100, 500⟩ ⟨[], []⟩ rfl).1 rfl

/-- C7 counterexample: both `curl` and `ffmpeg` launch and exit with
status 1, yet the episode completes with `Except.ok` — the non-zero exit
statuses are not surfaced as an error. -/
theorem exit_status_counterexample :
    syncItem parseDemo ⟨.launched 1, .launched 1, true⟩ "P" exNone
        ⟨some "T", some "D1", some "U"⟩ ⟨[], []⟩ =
      (⟨["P - T.mp3"], [("P - T.mp3", ⟨100, 0⟩)]⟩, .ok ()) := rfl

/-- C7 (amended): for a needs-download episode, the pipeline succeeds for
every pair of exit codes of the launched downloader and transcoder (their
exit statuses are ignored); an error is surfaced only when spawning
either process fails (`Failed to download episode` in both cases — the
`ffmpeg` wrap message reuses the download text) or when stamping the
mtime fails. -/
theorem pipeline_errors (parse : String → Option Timestamp)
    (podcastName t d e : String) (existing : String → Option Int)
    (ts : Timestamp) (st : SyncState)
    (hparse : parse d = some ts)
    (hre : redownloadDecision existing (podcast_file_name podcastName t)
      ts.secs = true) :
    (∀ c1 c2 : Int,
      (syncItem parse ⟨.launched c1, .launched c2, true⟩ podcastName existing
        ⟨some t, some d, some e⟩ st).2 = .ok ()) ∧
    (∀ (ff : SpawnResult) (sm : Bool),
      syncItem parse ⟨.launchFailed, ff, sm⟩ podcastName existing
          ⟨some t, some d, some e⟩ st =
        (st, .error "Failed to download episode")) ∧
    (∀ (c1 : Int) (sm : Bool),
      syncItem parse ⟨.launched c1, .launchFailed, sm⟩ podcastName existing
          ⟨some t, some d, some e⟩ st =
        (st, .error "Failed to download episode")) ∧
    (∀ c1 c2 : Int,
      syncItem parse ⟨.launched c1, .launched c2, false⟩ podcastName existing
          ⟨some t, some d, some e⟩ st =
        (st, .error "Failed to set mtime")) := by
  refine ⟨?_, ?_, ?_, ?_⟩
  · intro c1 c2
    simp [syncItem, hparse, hre]
  · intro ff sm
    simp [syncItem, hparse, hre]
  · intro c1 sm
    simp [syncItem, hparse, hre]
  · intro c1 c2
    simp [syncItem, hparse, hre]

/-- Witness for amended C7 at a concrete input: exit status 1 from both
processes still yields `Except.ok`. -/
theorem pipeline_errors_witness :
    (syncItem parseDemo ⟨.launched 1, .launched 1, true⟩ "P" exNone
      ⟨some "T", some "D1", some "U"⟩ ⟨[], []⟩).2 = .ok () :=
  (pipeline_errors parseDemo "P" "T" "D1" "U" exNone ⟨100, 500⟩
    ⟨[], []⟩ rfl rfl).1 1 1

/-- C8 counterexample: with two configured podcast sets `A` and `B` and a
feed fetch that fails, processing of `A` raises an error and `B` is never
attempted — only `A` appears in the list of attempted sets. -/
theorem set_loop_counterexample :
    syncPodcastSetsLoop runSetDemo [setA, setB] =
      (["A"], .error "Failed to fetch podcast PA from urlA") ∧
    "B" ∉ (syncPodcastSetsLoop runSetDemo [setA, setB]).1 := by
  refine ⟨rfl, ?_⟩
  have h1 : (syncPodcastSetsLoop runSetDemo [setA, setB]).1 = ["A"] := rfl
  rw [h1]
  decide

/-- C8 (amended): an error raised while processing one podcast set
propagates out of the loop in `main`, so none of the remaining podcast
sets is attempted. -/
theorem set_error_aborts_loop (runSet : PodcastSet → Except String Unit)
    (s : PodcastSet) (rest : List PodcastSet) (msg : String)
    (h : runSet s = .error msg) :
    syncPodcastSetsLoop runSet (s :: rest) = ([s.name], .error msg) := by
  simp [syncPodcastSetsLoop, h]

/-- Witness for amended C8 at a concrete input: set `A` fails and the
loop over `[A, B]` stops after `A`. -/
theorem set_error_aborts_loop_witness :
    syncPodcastSetsLoop runSetDemo (setA :: [setB]) =
      ([setA.name], .error "Failed to fetch podcast PA from urlA") :=
  set_error_aborts_loop runSetDemo setA [setB]
    "Failed to fetch podcast PA from urlA" rfl

/-- C9 counterexample: an episode whose publication date fails to parse
aborts with `Failed to parse date time baddate`, a message that does not
contain the podcast name (`MyPod`) or any episode identification. -/
theorem parse_error_names_counterexample :
    (syncItem parseNone allOkEff "MyPod" exNone
      ⟨some "T", some "baddate", some "U"⟩ ⟨[], []⟩).2 =
      .error "Failed to parse date time baddate" ∧
    ¬ List.IsInfix "MyPod".data "Failed to parse date time baddate".data :=
  ⟨rfl, by decide⟩

/-- C9 (amended): an in-window episode lacking a title aborts with an
error naming the podcast; one lacking a publication date or an enclosure
aborts with an error naming the podcast and the episode title; one whose
publication date fails to parse aborts with an error naming only the
offending date string; and an episode error stops the episode loop (the
episode is not skipped: the loop result is that error). -/
theorem invalid_episode_errors (parse : String → Option Timestamp)
    (eff : EpisodeEffects) (effs : Nat → EpisodeEffects)
    (podcastName : String) (existing : String → Option Int)
    (item : Item) (st : SyncState) :
    (item.title = none →
      syncItem parse eff podcastName existing item st =
        (st, .error ("Podcast " ++ podcastName ++
          " item doesn\x27t have title"))) ∧
    (∀ t : String, item.title = some t → item.pub_date = none →
      syncItem parse eff podcastName existing item st =
        (st, .error ("Podcast " ++ podcastName ++ " episode " ++ t ++
          " doesn\x27t have pub date"))) ∧
    (∀ t dd : String, item.title = some t → item.pub_date = some dd →
      parse dd = none →
      syncItem parse eff podcastName existing item st =
        (st, .error ("Failed to parse date time " ++ dd))) ∧
    (∀ (t dd : String) (ts : Timestamp), item.title = some t →
      item.pub_date = some dd → parse dd = some ts → item.enclosure = none →
      syncItem parse eff podcastName existing item st =
        (st, .error ("Podcast " ++ podcastName ++ " episode " ++ t ++
          " doesn\x27t have enclosure"))) ∧
    (∀ (msg : String) (rest : List Item) (i : Nat),
      (syncItem parse (effs i) podcastName existing item st).2 = .error msg →
      syncItems parse effs podcastName existing (item :: rest) i st =
        ((syncItem parse (effs i) podcastName existing item st).1,
         .error msg)) := by
  obtain ⟨tit, pd, enc⟩ := item
  refine ⟨?_, ?_, ?_, ?_, ?_⟩
  · intro h
    subst h
    simp [syncItem]
  · intro t ht hpd
    subst ht; subst hpd
    simp [syncItem]
  · intro t dd ht hpd hparse
    subst ht; subst hpd
    simp [syncItem, hparse]
  · intro t dd ts ht hpd hparse henc
    subst ht; subst hpd; subst henc
    simp [syncItem, hparse]
  · intro msg rest i h
    rcases hres : syncItem parse (effs i) podcastName existing
      ⟨tit, pd, enc⟩ st with ⟨st2, r⟩
    rw [hres] at h
    simp only [syncItems]
    rw [hres]
    cases r with
    | ok u => simp at h
    | error e =>
      simp only at h
      rw [h]

/-- Witness for amended C9 at a concrete input: the missing-title case,
whose error message names the podcast. -/
theorem invalid_episode_errors_witness :
    syncItem parseDemo allOkEff "MyPod" exNone ⟨none, none, none⟩ ⟨[], []⟩ =
      (⟨[], []⟩, .error "Podcast MyPod item doesn\x27t have title") :=
  (invalid_episode_errors parseDemo allOkEff (fun _ => allOkEff) "MyPod"
    exNone ⟨none, none, none⟩ ⟨[], []⟩).1 rfl

/-- C10: the episode classifications of one podcast-set run are computed
against the mapping produced by the single directory scan done before the
podcast loop; a file written during the run does not affect later
lookups, so two in-window episodes whose titles sanitize to the same
(locally absent) filename are both classified needs-download and both
downloaded, the second write overwriting the first: the next run observes
the second episode's publication time on that file. -/
theorem single_scan_collision (parse : String → Option Timestamp)
    (fetch : Podcast → Except String (List Item))
    (setName pname url : String) (speed : Float)
    (t1 d1 u1 t2 d2 u2 : String) (ts1 ts2 : Timestamp)
    (entries : List DirEntry)
    (hfetch : fetch ⟨pname, url, 2, speed⟩ =
      .ok [⟨some t1, some d1, some u1⟩, ⟨some t2, some d2, some u2⟩])
    (hp1 : parse d1 = some ts1) (hp2 : parse d2 = some ts2)
    (hcol : podcast_file_name pname t2 = podcast_file_name pname t1)
    (habs : existingOf entries (podcast_file_name pname t1) = none) :
    sync_podcasts parse (fun _ _ => allOkEff) fetch
        ⟨setName, [⟨pname, url, 2, speed⟩]⟩ entries =
      (⟨[podcast_file_name pname t1],
        [(podcast_file_name pname t1, ⟨ts1.secs, 0⟩),
         (podcast_file_name pname t1, ⟨ts2.secs, 0⟩)]⟩, .ok ()) ∧
    nextRunExisting (existingOf entries)
        [(podcast_file_name pname t1, ⟨ts1.secs, 0⟩),
         (podcast_file_name pname t1, ⟨ts2.secs, 0⟩)]
        (podcast_file_name pname t1) = some ts2.secs := by
  constructor
  · simp [sync_podcasts, podcastsLoop, hfetch, syncOnePodcast, syncItems,
      syncItem, hp1, hp2, hcol, habs, redownloadDecision, allOkEff,
      insertSet, List.take]
  · simp [nextRunExisting, applyWrite]

/-- Witness for C10 at a concrete input: titles `Ep#1` and `Ep?1` both
sanitize to `Show - Ep1.mp3`; both episodes are downloaded and the second
publication time (200 s) ends up on the file. -/
theorem single_scan_collision_witness :
    sync_podcasts parseDemo (fun _ _ => allOkEff) fetchCollide
        ⟨"S", [⟨"Show", "u", 2, 1.0⟩]⟩ [] =
      (⟨["Show - Ep1.mp3"],
        [("Show - Ep1.mp3", ⟨100, 0⟩), ("Show - Ep1.mp3", ⟨200, 0⟩)]⟩,
       .ok ()) ∧
    nextRunExisting (existingOf [])
        [("Show - Ep1.mp3", ⟨100, 0⟩), ("Show - Ep1.mp3", ⟨200, 0⟩)]
        "Show - Ep1.mp3" = some 200 :=
  single_scan_collision parseDemo fetchCollide "S" "Show" "u" 1.0
    "Ep#1" "D1" "U1" "Ep?1" "D2" "U2" ⟨100, 500⟩ ⟨200, 0⟩ []
    rfl rfl rfl (by decide) rfl

end SoundSyncer
